import Mathlib

/-!
Verification of the timelapse viewer client (`src/src/App.tsx`).

The program is a single stateful view component.  We shallow-embed its
state as a record and every state mutation reachable from the code as an
explicit transition function; the host event loop is modelled as a guarded
step relation, where a guard records the condition under which the code
lets the corresponding event fire (a button that is only rendered in a
given view, an interval that is only armed while a condition holds, a
fetch callback that only runs while a request is in flight).
-/

/-- Frame metadata, `interface Image` in `App.tsx`. -/
structure Image where
  filename : String
  path : String
  timestamp : Int
  deriving Repr, DecidableEq

/-- The closed set of view modes: the `viewMode` state variable holds one of
the strings `'gallery'`, `'timeline'`, `'live'` (comment at its `useState`,
and the three `TabsTrigger` values). -/
inductive ViewMode where
  | gallery
  | timeline
  | live
  deriving Repr, DecidableEq

/-- The component state: one field per `useState` hook of `App`, plus
`fetchInFlight`, which records whether a `fetchImages` request is pending
(the code keeps this implicitly in the continuation of the `await`). -/
structure AppState where
  images : List Image
  loading : Bool
  error : Option String
  viewMode : ViewMode
  playbackSpeed : ℚ
  isPlaying : Bool
  currentImageIndex : Int
  liveImage : Option Image
  fetchInFlight : Bool
  deriving Repr, DecidableEq

/-- State right after mount: the `useState` initial values, with
`fetchInFlight := true` because the mount effect immediately calls
`fetchImages` (which has already set `loading = true`, `error = null`). -/
def initialState : AppState :=
  { images := []
    loading := true
    error := none
    viewMode := ViewMode.gallery
    playbackSpeed := 1
    isPlaying := false
    currentImageIndex := 0
    liveImage := none
    fetchInFlight := true }

/-- The playback interval callback (`App.tsx` lines 50-53):
`prevIndex >= images.length - 1 ? 0 : prevIndex + 1`.
JavaScript `images.length - 1` is `-1` on an empty list, hence the
computation is over `Int`. -/
def tick (len : Nat) (prevIndex : Int) : Int :=
  if prevIndex ≥ (len : Int) - 1 then 0 else prevIndex + 1

/-- One scheduler tick applied to the component state. -/
def schedulerTick (s : AppState) : AppState :=
  { s with currentImageIndex := tick s.images.length s.currentImageIndex }

/-- The arming condition of the playback `useEffect` (`App.tsx` line 48):
the repeating timer exists exactly while `isPlaying && viewMode === 'timeline'`;
in every other state the effect (or its cleanup) has cleared the interval. -/
def schedulerArmed (s : AppState) : Bool :=
  s.isPlaying && decide (s.viewMode = ViewMode.timeline)

/-- The error message built in the `catch` of `fetchImages`
(`App.tsx` line 86). -/
def errorMessage (detail : String) : String :=
  "Failed to load images. " ++ detail

/-- Net effect of a successful `fetchImages` call (`App.tsx` lines 67-90):
`setLoading(true); setError(null)` on entry, then `setImages(data)`,
`if (data.length > 0) setCurrentImageIndex(0)`, and `setLoading(false)`
in the `finally` block. -/
def fetchImagesSuccess (s : AppState) (data : List Image) : AppState :=
  { s with
    images := data
    error := none
    currentImageIndex := if data.length > 0 then 0 else s.currentImageIndex
    loading := false
    fetchInFlight := false }

/-- Net effect of a failing `fetchImages` call (transport error or
non-2xx status, both thrown and caught): `setError(null)` on entry,
`setError(msg)` in `catch`, `setLoading(false)` in `finally`;
`images` and `currentImageIndex` are not touched. -/
def fetchImagesFailure (s : AppState) (detail : String) : AppState :=
  { s with
    error := some (errorMessage detail)
    loading := false
    fetchInFlight := false }

/-- Net effect of a successful `fetchLiveImage` call (`App.tsx` lines 93-105):
`setLiveImage(data)` and nothing else. -/
def fetchLiveImageSuccess (s : AppState) (data : Image) : AppState :=
  { s with liveImage := some data }

/-- Net effect of a failing `fetchLiveImage` call: the `catch` block only
calls `console.error`, so the state is unchanged and no exception escapes
(the function is total). -/
def fetchLiveImageFailure (s : AppState) : AppState := s

/-- `togglePlayback` (`App.tsx` lines 108-110). -/
def togglePlayback (s : AppState) : AppState :=
  { s with isPlaying := !s.isPlaying }

/-- Previous button handler (`App.tsx` line 242): `Math.max(0, prev - 1)`. -/
def stepBack (prev : Int) : Int :=
  max 0 (prev - 1)

/-- Next button handler (`App.tsx` line 257):
`Math.min(images.length - 1, prev + 1)`. -/
def stepForward (len : Nat) (prev : Int) : Int :=
  min ((len : Int) - 1) (prev + 1)

/-- Gallery image click handler (`App.tsx` lines 201-204):
`setCurrentImageIndex(index); setViewMode('timeline')`. -/
def galleryClickAction (s : AppState) (i : Nat) : AppState :=
  { s with
    currentImageIndex := (i : Int)
    viewMode := ViewMode.timeline }

/-- Modelled from the spec: the timeline position `Slider`
(`@/components/ui/slider`, a repository component not under `src/`) clamps
the value it emits to `[min, max] = [0, images.length - 1]`
(`App.tsx` lines 299-305), and `onValueChange` assigns that value to the
Cursor; per the spec, direct-seek is `cursor = clamp(requested, 0, length-1)`. -/
def directSeek (len : Nat) (requested : Int) : Int :=
  max 0 (min requested ((len : Int) - 1))

/-- Playback speed slider handler (`App.tsx` line 285):
`setPlaybackSpeed(values[0])`. -/
def setSpeedAction (s : AppState) (v : ℚ) : AppState :=
  { s with playbackSpeed := v }

/-- Tab change handler (`App.tsx` line 180): `onValueChange={setViewMode}`. -/
def setModeAction (s : AppState) (m : ViewMode) : AppState :=
  { s with viewMode := m }

/-- Retry button handler is `fetchImages` again; this is its synchronous
entry (`setLoading(true); setError(null)`, request goes in flight). -/
def startFetchImages (s : AppState) : AppState :=
  { s with loading := true, error := none, fetchInFlight := true }

/-- The events the host event loop can deliver to the component. -/
inductive Event where
  | tick
  | togglePlay
  | setMode (m : ViewMode)
  | galleryClick (i : Nat)
  | navFirst
  | navPrev
  | navNext
  | navLast
  | seek (v : Int)
  | setSpeed (v : ℚ)
  | retryLoad
  | imagesOk (data : List Image)
  | imagesErr (detail : String)
  | liveOk (img : Image)
  | liveErr

/-- One step of the event loop.  Each constructor's guard is the condition
under which `App.tsx` lets that event fire:

* `tick` fires only while the playback interval is armed;
* every timeline control is rendered inside the timeline `TabsContent`,
  which exists only after the three empty-store early returns
  (lines 132, 146, 161), so its guard includes `images ≠ []` and
  `viewMode = timeline`; `navPrev`/`navNext` additionally honour the
  buttons' `disabled` attributes (lines 243, 258);
* tabs themselves are only rendered when `images ≠ []`;
* a gallery click needs the gallery view and an existing index;
* the Retry button is rendered only by the error early return
  (line 146: `error && images.length === 0`, after the
  `loading && images.length === 0` return, so `loading = false`);
* `fetchImages` callbacks run only while a request is in flight;
* `fetchLiveImage` callbacks are unguarded: a response may arrive at any
  time (in-flight requests are never cancelled). -/
inductive Step : AppState → Event → AppState → Prop where
  | tick (s : AppState) (hg : schedulerArmed s = true) :
      Step s Event.tick (schedulerTick s)
  | togglePlay (s : AppState) (hg : s.images ≠ [] ∧ s.viewMode = ViewMode.timeline) :
      Step s Event.togglePlay (togglePlayback s)
  | setMode (s : AppState) (m : ViewMode) (hg : s.images ≠ []) :
      Step s (Event.setMode m) (setModeAction s m)
  | galleryClick (s : AppState) (i : Nat)
      (hg : s.viewMode = ViewMode.gallery ∧ i < s.images.length) :
      Step s (Event.galleryClick i) (galleryClickAction s i)
  | navFirst (s : AppState) (hg : s.images ≠ [] ∧ s.viewMode = ViewMode.timeline) :
      Step s Event.navFirst { s with currentImageIndex := 0 }
  | navPrev (s : AppState)
      (hg : s.images ≠ [] ∧ s.viewMode = ViewMode.timeline ∧ s.currentImageIndex ≠ 0) :
      Step s Event.navPrev { s with currentImageIndex := stepBack s.currentImageIndex }
  | navNext (s : AppState)
      (hg : s.images ≠ [] ∧ s.viewMode = ViewMode.timeline ∧
        s.currentImageIndex ≠ (s.images.length : Int) - 1) :
      Step s Event.navNext
        { s with currentImageIndex := stepForward s.images.length s.currentImageIndex }
  | navLast (s : AppState) (hg : s.images ≠ [] ∧ s.viewMode = ViewMode.timeline) :
      Step s Event.navLast { s with currentImageIndex := (s.images.length : Int) - 1 }
  | seek (s : AppState) (v : Int) (hg : s.images ≠ [] ∧ s.viewMode = ViewMode.timeline) :
      Step s (Event.seek v)
        { s with currentImageIndex := directSeek s.images.length v }
  | setSpeed (s : AppState) (v : ℚ) (hg : s.images ≠ [] ∧ s.viewMode = ViewMode.timeline) :
      Step s (Event.setSpeed v) (setSpeedAction s v)
  | retryLoad (s : AppState)
      (hg : s.images = [] ∧ s.error ≠ none ∧ s.loading = false) :
      Step s Event.retryLoad (startFetchImages s)
  | imagesOk (s : AppState) (data : List Image) (hg : s.fetchInFlight = true) :
      Step s (Event.imagesOk data) (fetchImagesSuccess s data)
  | imagesErr (s : AppState) (detail : String) (hg : s.fetchInFlight = true) :
      Step s (Event.imagesErr detail) (fetchImagesFailure s detail)
  | liveOk (s : AppState) (img : Image) :
      Step s (Event.liveOk img) (fetchLiveImageSuccess s img)
  | liveErr (s : AppState) :
      Step s Event.liveErr (fetchLiveImageFailure s)

/-- States reachable from the post-mount state. -/
inductive Reachable : AppState → Prop where
  | init : Reachable initialState
  | step {s : AppState} {e : Event} {s' : AppState} :
      Reachable s → Step s e s' → Reachable s'

/-- The inductive invariant behind the empty-store gating: play can only be
toggled from the timeline view, which is never rendered with an empty
store, and a `fetchImages` request can only be in flight while the store
is empty and playback is off (mount, or Retry from the empty error view). -/
def AppInv (s : AppState) : Prop :=
  (s.images = [] → s.isPlaying = false) ∧
  (s.fetchInFlight = true → s.images = [] ∧ s.isPlaying = false)

/-- A sample frame used to instantiate theorems. -/
def sampleImage : Image :=
  { filename := "img_0001.jpg"
    path := "/images/img_0001.jpg"
    timestamp := 1700000000000 }

/-- A sample idle state holding one frame. -/
def sampleState : AppState :=
  { images := [sampleImage]
    loading := false
    error := none
    viewMode := ViewMode.gallery
    playbackSpeed := 1
    isPlaying := false
    currentImageIndex := 0
    liveImage := none
    fetchInFlight := false }

/-- Every event-loop step preserves `AppInv`. -/
theorem appInv_step (s : AppState) (e : Event) (s' : AppState)
    (hs : AppInv s) (h : Step s e s') : AppInv s' := by
  obtain ⟨h1, h2⟩ := hs
  cases h with
  | tick hg => exact ⟨h1, h2⟩
  | togglePlay hg =>
      exact ⟨fun he => absurd he hg.1, fun hf => absurd (h2 hf).1 hg.1⟩
  | setMode m hg => exact ⟨h1, h2⟩
  | galleryClick i hg => exact ⟨h1, h2⟩
  | navFirst hg => exact ⟨h1, h2⟩
  | navPrev hg => exact ⟨h1, h2⟩
  | navNext hg => exact ⟨h1, h2⟩
  | navLast hg => exact ⟨h1, h2⟩
  | seek v hg => exact ⟨h1, h2⟩
  | setSpeed v hg => exact ⟨h1, h2⟩
  | retryLoad hg => exact ⟨h1, fun _ => ⟨hg.1, h1 hg.1⟩⟩
  | imagesOk data hg =>
      exact ⟨fun _ => (h2 hg).2, fun hf => Bool.noConfusion hf⟩
  | imagesErr detail hg =>
      exact ⟨h1, fun hf => Bool.noConfusion hf⟩
  | liveOk img => exact ⟨h1, h2⟩
  | liveErr => exact ⟨h1, h2⟩

/-- `AppInv` holds in every reachable state. -/
theorem reachable_appInv {s : AppState} (h : Reachable s) : AppInv s := by
  induction h with
  | init => exact ⟨fun _ => rfl, fun _ => ⟨rfl, rfl⟩⟩
  | step hr hstep ih => exact appInv_step _ _ _ ih hstep

/-- C1: while playback is running, each scheduler tick advances the Cursor
by exactly 1, except at or beyond `length - 1`, where it wraps to 0; on a
non-empty store with an in-range cursor this is exactly
`(cursor + 1) % length`. -/
theorem tick_advances_modulo (len : Nat) (c : Int)
    (h0 : 0 ≤ c) (h1 : c < (len : Int)) :
    (c < (len : Int) - 1 → tick len c = c + 1) ∧
    ((len : Int) - 1 ≤ c → tick len c = 0) ∧
    tick len c = (c + 1) % (len : Int) := by
  unfold tick
  refine ⟨fun hlt => ?_, fun hge => ?_, ?_⟩
  · rw [if_neg (by omega)]
  · rw [if_pos (by omega)]
  · by_cases hc : c ≥ (len : Int) - 1
    · rw [if_pos hc]
      have hone : c + 1 = (len : Int) := by omega
      rw [hone, Int.emod_self]
    · rw [if_neg hc, Int.emod_eq_of_lt (by omega) (by omega)]

/-- Witness for C1 at `length = 5`, `cursor = 4` (the wrap case of the
spec's example). -/
theorem tick_advances_modulo_witness :
    (4 < (5 : Int) - 1 → tick 5 4 = 4 + 1) ∧
    ((5 : Int) - 1 ≤ 4 → tick 5 4 = 0) ∧
    tick 5 4 = (4 + 1) % (5 : Int) :=
  tick_advances_modulo 5 4 (by decide) (by decide)

/-- C2: a successful `fetchImages` whose response holds at least one frame
replaces the entire Frame Store with the server-provided sequence and
resets the Cursor to 0. -/
theorem fetchImagesSuccess_replaces_and_resets (s : AppState)
    (data : List Image) (h : data ≠ []) :
    (fetchImagesSuccess s data).images = data ∧
    (fetchImagesSuccess s data).currentImageIndex = 0 := by
  refine ⟨rfl, ?_⟩
  simp [fetchImagesSuccess, List.length_pos.mpr h]

/-- Witness for C2: loading one frame from the initial state. -/
theorem fetchImagesSuccess_replaces_and_resets_witness :
    (fetchImagesSuccess initialState [sampleImage]).images = [sampleImage] ∧
    (fetchImagesSuccess initialState [sampleImage]).currentImageIndex = 0 :=
  fetchImagesSuccess_replaces_and_resets initialState [sampleImage]
    (List.cons_ne_nil _ _)

/-- C3: in every reachable state with an empty Frame Store the playback
scheduler is not armed, and no tick step can fire from that state, so no
tick can mutate the Cursor. -/
theorem empty_store_never_armed (s : AppState) (hr : Reachable s)
    (he : s.images = []) :
    schedulerArmed s = false ∧ ∀ s', ¬ Step s Event.tick s' := by
  have hp : s.isPlaying = false := (reachable_appInv hr).1 he
  have ha : schedulerArmed s = false := by simp [schedulerArmed, hp]
  refine ⟨ha, fun s' hstep => ?_⟩
  cases hstep with
  | tick hg => rw [ha] at hg; exact Bool.noConfusion hg

/-- Witness for C3 at the initial (empty-store) state. -/
theorem empty_store_never_armed_witness :
    schedulerArmed initialState = false :=
  (empty_store_never_armed initialState Reachable.init rfl).1

/-- C4: with a non-empty store and an in-range cursor, the Next button
computes `min (length-1) (cursor+1)` and the Previous button
`max 0 (cursor-1)`; both results stay inside `[0, length-1]`, Next at
`length-1` is a no-op and Previous at 0 is a no-op. -/
theorem step_buttons_clamp (len : Nat) (c : Int)
    (hlen : 1 ≤ len) (h0 : 0 ≤ c) (h1 : c ≤ (len : Int) - 1) :
    stepForward len c = min ((len : Int) - 1) (c + 1) ∧
    stepBack c = max 0 (c - 1) ∧
    0 ≤ stepForward len c ∧ stepForward len c ≤ (len : Int) - 1 ∧
    0 ≤ stepBack c ∧ stepBack c ≤ (len : Int) - 1 ∧
    (c = (len : Int) - 1 → stepForward len c = c) ∧
    (c = 0 → stepBack c = c) := by
  unfold stepForward stepBack
  omega

/-- Witness for C4 at `length = 3`, `cursor = 2` (the right end). -/
theorem step_buttons_clamp_witness :
    stepForward 3 2 = min ((3 : Int) - 1) (2 + 1) ∧
    stepBack 2 = max 0 ((2 : Int) - 1) ∧
    0 ≤ stepForward 3 2 ∧ stepForward 3 2 ≤ (3 : Int) - 1 ∧
    0 ≤ stepBack 2 ∧ stepBack 2 ≤ (3 : Int) - 1 ∧
    ((2 : Int) = (3 : Int) - 1 → stepForward 3 2 = 2) ∧
    ((2 : Int) = 0 → stepBack 2 = 2) :=
  step_buttons_clamp 3 2 (by decide) (by decide) (by decide)

/-- C5: direct-seek clamps the requested index to `[0, length-1]`: a
negative request yields 0, a request past the end yields `length-1`, an
in-range request passes through, and the result is never out of range. -/
theorem directSeek_clamps (len : Nat) (r : Int) (hlen : 1 ≤ len) :
    (r < 0 → directSeek len r = 0) ∧
    ((len : Int) - 1 < r → directSeek len r = (len : Int) - 1) ∧
    (0 ≤ r → r ≤ (len : Int) - 1 → directSeek len r = r) ∧
    0 ≤ directSeek len r ∧ directSeek len r ≤ (len : Int) - 1 := by
  unfold directSeek
  omega

/-- Witness for C5 at `length = 3`, `requested = 7` (past the end). -/
theorem directSeek_clamps_witness :
    ((7 : Int) < 0 → directSeek 3 7 = 0) ∧
    ((3 : Int) - 1 < 7 → directSeek 3 7 = (3 : Int) - 1) ∧
    (0 ≤ (7 : Int) → (7 : Int) ≤ (3 : Int) - 1 → directSeek 3 7 = 7) ∧
    0 ≤ directSeek 3 7 ∧ directSeek 3 7 ≤ (3 : Int) - 1 :=
  directSeek_clamps 3 7 (by decide)

/-- The error message is never empty: it always starts with the fixed text
`"Failed to load images. "`. -/
theorem errorMessage_ne_empty (detail : String) : errorMessage detail ≠ "" := by
  intro hcontra
  have hlen := congrArg String.length hcontra
  rw [errorMessage, String.length_append] at hlen
  have h23 : "Failed to load images. ".length = 23 := rfl
  have h0 : "".length = 0 := rfl
  omega

/-- C6: a failing `fetchImages` leaves the previous Frame Store (and
Cursor) untouched and sets a non-empty error message derived from the
failure; a subsequent successful call clears the error and installs the
fetched frames. -/
theorem fetchImagesFailure_keeps_store (s : AppState) (detail : String)
    (data : List Image) :
    (fetchImagesFailure s detail).images = s.images ∧
    (fetchImagesFailure s detail).currentImageIndex = s.currentImageIndex ∧
    (fetchImagesFailure s detail).error = some (errorMessage detail) ∧
    errorMessage detail ≠ "" ∧
    (fetchImagesSuccess (fetchImagesFailure s detail) data).error = none ∧
    (fetchImagesSuccess (fetchImagesFailure s detail) data).images = data :=
  ⟨rfl, rfl, rfl, errorMessage_ne_empty detail, rfl, rfl⟩

/-- C7: a failing `fetchLiveImage` leaves the entire state — in particular
the previous Live Frame — unchanged; the exception is caught inside the
function (its embedding is total), so nothing propagates. -/
theorem fetchLiveImageFailure_noop (s : AppState) :
    fetchLiveImageFailure s = s ∧
    (fetchLiveImageFailure s).liveImage = s.liveImage :=
  ⟨rfl, rfl⟩

/-- C8: clicking the gallery item at index `i` sets the Cursor to `i` and
the View Mode to timeline in the same action, whatever the previous mode
and cursor were. -/
theorem galleryClick_sets_cursor_and_mode (s : AppState) (i : Nat)
    (h : i < s.images.length) :
    (galleryClickAction s i).currentImageIndex = (i : Int) ∧
    (galleryClickAction s i).viewMode = ViewMode.timeline :=
  ⟨rfl, rfl⟩

/-- Witness for C8: clicking item 0 of a one-frame gallery. -/
theorem galleryClick_sets_cursor_and_mode_witness :
    (galleryClickAction sampleState 0).currentImageIndex = (0 : Int) ∧
    (galleryClickAction sampleState 0).viewMode = ViewMode.timeline :=
  galleryClick_sets_cursor_and_mode sampleState 0 (by decide)

/-- C9: as soon as `playing` is false or the View Mode is not timeline,
the scheduler is disarmed (the effect and its cleanup clear the interval
in the same transition) and no tick step can fire from such a state, so no
tick mutates the Cursor after the transition. -/
theorem stop_or_leave_disarms (s : AppState)
    (h : s.isPlaying = false ∨ s.viewMode ≠ ViewMode.timeline) :
    schedulerArmed s = false ∧ ∀ s', ¬ Step s Event.tick s' := by
  have ha : schedulerArmed s = false := by
    rcases h with h | h <;> simp [schedulerArmed, h]
  refine ⟨ha, fun s' hstep => ?_⟩
  cases hstep with
  | tick hg => rw [ha] at hg; exact Bool.noConfusion hg

/-- Witness for C9: a state that is playing but sits in the gallery view. -/
theorem stop_or_leave_disarms_witness :
    schedulerArmed { sampleState with isPlaying := true } = false :=
  (stop_or_leave_disarms { sampleState with isPlaying := true }
    (Or.inr (by decide))).1

/-- C10: `fetchLiveImage` touches only the Live Frame: a successful call
changes nothing but `liveImage`, and a failing call changes nothing at
all. -/
theorem fetchLiveImage_only_live_frame (s : AppState) (data : Image) :
    (fetchLiveImageSuccess s data).liveImage = some data ∧
    (fetchLiveImageSuccess s data).images = s.images ∧
    (fetchLiveImageSuccess s data).currentImageIndex = s.currentImageIndex ∧
    (fetchLiveImageSuccess s data).error = s.error ∧
    (fetchLiveImageSuccess s data).loading = s.loading ∧
    (fetchLiveImageSuccess s data).viewMode = s.viewMode ∧
    (fetchLiveImageSuccess s data).isPlaying = s.isPlaying ∧
    (fetchLiveImageSuccess s data).playbackSpeed = s.playbackSpeed ∧
    fetchLiveImageFailure s = s :=
  ⟨rfl, rfl, rfl, rfl, rfl, rfl, rfl, rfl, rfl⟩
